import Mathlib

/-!
Verification of the quote-aggregation core of the v3uniswap repository:
the webhook dispatch-and-classification engine (WebhookQuoter), its
endpoint-filtering policies (chain, circuit breaker, compliance), the
response classifier, the analytics-event invariant, and the fade-rate
aggregation algorithm.

The non-test core of these components is not shipped under src/ (only the
tests, the provider interfaces and thin glue are), so the operational
definitions below are modelled from the specification, with behaviour
pinned by the in-repo test suites
(test/providers/quoters/WebhookQuoter.test.ts, the fade-rate cron test).
-/

namespace V3Uniswap

/-! Fade-rate aggregation (spec section 4.4) -/

/-- A per-address fill-statistics row (`FadesRowType` in the source). -/
structure FadesRowType where
  fillerAddress : String
  totalQuotes : Nat
  fadedQuotes : Nat
  deriving DecidableEq, Repr

/-- Resolve a filler address through the address-to-filler map
(the map is modelled as an association list). -/
def resolveFiller (addressToFiller : List (String × String)) (addr : String) :
    Option String :=
  (addressToFiller.find? (fun p => p.1 == addr)).map (·.2)

/-- Add one row of statistics under a filler key to a grouped accumulator,
summing `totalQuotes` and `fadedQuotes` componentwise. -/
def addFadeRow (filler : String) (total faded : Nat) :
    List (String × Nat × Nat) → List (String × Nat × Nat)
  | [] => [(filler, (total, faded))]
  | (g, t, q) :: rest =>
    if g == filler then (g, (t + total, q + faded)) :: rest
    else (g, (t, q)) :: addFadeRow filler total faded rest

/-- One grouping step: resolve the row address and, when mapped, add the
row under its filler; rows whose address is not in the map are dropped
(the source logs a warning for those). -/
def fadeStep (addressToFiller : List (String × String))
    (acc : List (String × Nat × Nat)) (row : FadesRowType) :
    List (String × Nat × Nat) :=
  match resolveFiller addressToFiller row.fillerAddress with
  | none => acc
  | some filler => addFadeRow filler row.totalQuotes row.fadedQuotes acc

/-- Group the rows by filler identity and sum the per-filler totals. -/
def aggregateFadeRows (rows : List FadesRowType)
    (addressToFiller : List (String × String)) : List (String × Nat × Nat) :=
  rows.foldl (fadeStep addressToFiller) []

/-- The per-filler rate computation: `fadedQuotes / totalQuotes`, with
zero-total fillers omitted rather than producing NaN or Infinity. -/
def rateEntry (e : String × Nat × Nat) : Option (String × ℚ) :=
  if e.2.1 == 0 then none
  else some (e.1, (e.2.2 : ℚ) / (e.2.1 : ℚ))

/-- Modelled from the spec: `calculateFillerFadeRates` of `lib/cron/fade-rate`
(the implementation file is absent from src/; only its test is present).
Groups rows by filler via the address-to-filler map, ignoring unmapped
addresses, sums `totalQuotes` and `fadedQuotes` per filler, and returns
`fadedQuotes / totalQuotes` per filler, omitting fillers whose summed
`totalQuotes` is zero. -/
def calculateFillerFadeRates (rows : List FadesRowType)
    (addressToFiller : List (String × String)) : List (String × ℚ) :=
  (aggregateFadeRows rows addressToFiller).filterMap rateEntry

/-- Lookup in a grouped accumulator. -/
def lookupAgg (l : List (String × Nat × Nat)) (f : String) : Option (Nat × Nat) :=
  (l.find? (fun p => p.1 == f)).map (·.2)

/-- Lookup in a fade-rate result mapping. -/
def lookupRate (l : List (String × ℚ)) (f : String) : Option ℚ :=
  (l.find? (fun p => p.1 == f)).map (·.2)

/-- Sum of `totalQuotes` over the rows that resolve to filler `f`. -/
def sumTotalQuotes (rows : List FadesRowType)
    (addressToFiller : List (String × String)) (f : String) : Nat :=
  ((rows.filter (fun r => resolveFiller addressToFiller r.fillerAddress == some f)).map
    (·.totalQuotes)).sum

/-- Sum of `fadedQuotes` over the rows that resolve to filler `f`. -/
def sumFadedQuotes (rows : List FadesRowType)
    (addressToFiller : List (String × String)) (f : String) : Nat :=
  ((rows.filter (fun r => resolveFiller addressToFiller r.fillerAddress == some f)).map
    (·.fadedQuotes)).sum

/-- Whether some row of the input resolves to filler `f`. -/
def occursFiller (rows : List FadesRowType) (m : List (String × String)) (f : String) : Bool :=
  rows.any (fun r => resolveFiller m r.fillerAddress == some f)

/-- The example rows of the fade-rate cron test. -/
def FADES_ROWS : List FadesRowType :=
  [⟨"0x1", 50, 10⟩, ⟨"0x2", 50, 20⟩, ⟨"0x3", 100, 5⟩]

/-- The example address-to-filler map of the fade-rate cron test. -/
def ADDRESS_TO_FILLER : List (String × String) :=
  [("0x1", "filler1"), ("0x2", "filler1"), ("0x3", "filler2")]

/-! Lemmas about the aggregation -/

theorem lookupAgg_nil (f : String) : lookupAgg [] f = none := rfl

theorem lookupAgg_cons (g : String) (v : Nat × Nat) (l : List (String × Nat × Nat)) (f : String) :
    lookupAgg ((g, v) :: l) f = if g = f then some v else lookupAgg l f := by
  by_cases h : g = f
  · simp [lookupAgg, List.find?_cons_of_pos, h]
  · rw [lookupAgg, List.find?_cons_of_neg, if_neg h]; rfl
    simpa using h

theorem lookupAgg_addFadeRow (filler : String) (t q : Nat) (acc : List (String × Nat × Nat))
    (f : String) :
    lookupAgg (addFadeRow filler t q acc) f =
      if f = filler then
        match lookupAgg acc f with
        | none => some (t, q)
        | some v => some (v.1 + t, v.2 + q)
      else lookupAgg acc f := by
  induction acc with
  | nil =>
    by_cases h : f = filler
    · simp [addFadeRow, lookupAgg_cons, lookupAgg_nil, h]
    · have h2 : ¬filler = f := fun hc => h hc.symm
      simp [addFadeRow, lookupAgg_cons, lookupAgg_nil, h, h2]
  | cons hd tl ih =>
    obtain ⟨g, t0, q0⟩ := hd
    by_cases hg : g = filler
    · subst hg
      simp only [addFadeRow, beq_self_eq_true, if_pos rfl]
      by_cases h : f = g
      · subst h; simp [lookupAgg_cons]
      · have h2 : ¬g = f := fun hc => h hc.symm
        simp [lookupAgg_cons, h, h2]
    · simp only [addFadeRow, beq_iff_eq, if_neg hg]
      by_cases h : f = g
      · subst h
        simp [lookupAgg_cons, hg]
      · have h2 : ¬g = f := fun hc => h hc.symm
        simp [lookupAgg_cons, h2, ih]

theorem sumTotalQuotes_cons (r : FadesRowType) (rows : List FadesRowType)
    (m : List (String × String)) (f : String) :
    sumTotalQuotes (r :: rows) m f =
      (if resolveFiller m r.fillerAddress = some f then r.totalQuotes else 0) +
        sumTotalQuotes rows m f := by
  by_cases h : resolveFiller m r.fillerAddress = some f <;>
    simp [sumTotalQuotes, List.filter_cons, h]

theorem sumFadedQuotes_cons (r : FadesRowType) (rows : List FadesRowType)
    (m : List (String × String)) (f : String) :
    sumFadedQuotes (r :: rows) m f =
      (if resolveFiller m r.fillerAddress = some f then r.fadedQuotes else 0) +
        sumFadedQuotes rows m f := by
  by_cases h : resolveFiller m r.fillerAddress = some f <;>
    simp [sumFadedQuotes, List.filter_cons, h]

theorem occursFiller_cons (r : FadesRowType) (rows : List FadesRowType)
    (m : List (String × String)) (f : String) :
    occursFiller (r :: rows) m f =
      ((resolveFiller m r.fillerAddress == some f) || occursFiller rows m f) := by
  simp [occursFiller, List.any_cons]

theorem lookupAgg_foldl (m : List (String × String)) (f : String) :
    ∀ (rows : List FadesRowType) (acc : List (String × Nat × Nat)),
    lookupAgg (rows.foldl (fadeStep m) acc) f =
      match lookupAgg acc f with
      | none =>
        if occursFiller rows m f then
          some (sumTotalQuotes rows m f, sumFadedQuotes rows m f)
        else none
      | some v => some (v.1 + sumTotalQuotes rows m f, v.2 + sumFadedQuotes rows m f) := by
  intro rows
  induction rows with
  | nil =>
    intro acc
    simp only [List.foldl_nil]
    cases hacc : lookupAgg acc f <;>
      simp [occursFiller, sumTotalQuotes, sumFadedQuotes]
  | cons r rows ih =>
    intro acc
    simp only [List.foldl_cons]
    rw [ih]
    cases hres : resolveFiller m r.fillerAddress with
    | none =>
      have hne : ¬resolveFiller m r.fillerAddress = some f := by simp [hres]
      simp only [fadeStep, hres]
      rw [sumTotalQuotes_cons, sumFadedQuotes_cons, occursFiller_cons]
      simp [hne]
    | some g =>
      simp only [fadeStep, hres]
      rw [lookupAgg_addFadeRow]
      by_cases hgf : f = g
      · subst hgf
        have hpos : resolveFiller m r.fillerAddress = some f := hres
        rw [sumTotalQuotes_cons, sumFadedQuotes_cons, occursFiller_cons]
        simp only [hpos, if_pos rfl, if_true]
        cases hacc : lookupAgg acc f <;> simp [Nat.add_assoc]
      · have hne : ¬resolveFiller m r.fillerAddress = some f := by
          simp [hres]; exact fun hc => hgf hc.symm
        have h2 : ¬f = g := hgf
        rw [sumTotalQuotes_cons, sumFadedQuotes_cons, occursFiller_cons]
        simp [hne, h2]


/-- Keys of a grouped accumulator. -/
def aggKeys (l : List (String × Nat × Nat)) : List String := l.map (·.1)

theorem addFadeRow_keys (g : String) (t q : Nat) :
    ∀ acc : List (String × Nat × Nat),
    aggKeys (addFadeRow g t q acc) =
      if g ∈ aggKeys acc then aggKeys acc else aggKeys acc ++ [g] := by
  intro acc
  induction acc with
  | nil => simp [addFadeRow, aggKeys]
  | cons hd tl ih =>
    obtain ⟨k, v⟩ := hd
    by_cases hk : k = g
    · subst hk
      simp [addFadeRow, aggKeys]
    · have : ¬(k == g) = true := by simpa using hk
      simp only [addFadeRow, aggKeys, List.map_cons]
      rw [if_neg (by simpa using hk)]
      simp only [aggKeys] at ih
      by_cases hmem : g ∈ List.map (fun x => x.1) tl
      · simp [List.mem_cons, hmem, ih, Ne.symm hk]
      · simp [List.mem_cons, hmem, ih, Ne.symm hk]

theorem addFadeRow_keys_nodup (g : String) (t q : Nat) (acc : List (String × Nat × Nat))
    (h : (aggKeys acc).Nodup) : (aggKeys (addFadeRow g t q acc)).Nodup := by
  rw [addFadeRow_keys]
  by_cases hmem : g ∈ aggKeys acc
  · simpa [hmem] using h
  · simp only [hmem, if_false, if_neg hmem]
    simp [List.nodup_append, h, hmem]

theorem aggregateFadeRows_keys_nodup (rows : List FadesRowType) (m : List (String × String)) :
    (aggKeys (aggregateFadeRows rows m)).Nodup := by
  suffices h : ∀ (rows : List FadesRowType) (acc : List (String × Nat × Nat)),
      (aggKeys acc).Nodup → (aggKeys (rows.foldl (fadeStep m) acc)).Nodup by
    exact h rows [] (by simp [aggKeys])
  intro rows
  induction rows with
  | nil => intro acc h; simpa using h
  | cons r rows ih =>
    intro acc h
    simp only [List.foldl_cons]
    apply ih
    cases hres : resolveFiller m r.fillerAddress with
    | none => simpa [fadeStep, hres] using h
    | some g => simp only [fadeStep, hres]; exact addFadeRow_keys_nodup _ _ _ _ h


theorem lookupRate_nil (f : String) : lookupRate [] f = none := rfl

theorem lookupRate_cons (g : String) (v : ℚ) (l : List (String × ℚ)) (f : String) :
    lookupRate ((g, v) :: l) f = if g = f then some v else lookupRate l f := by
  by_cases h : g = f
  · simp [lookupRate, List.find?_cons_of_pos, h]
  · rw [lookupRate, List.find?_cons_of_neg, if_neg h]; rfl
    simpa using h

theorem lookupAgg_eq_none_of_not_mem (l : List (String × Nat × Nat)) (f : String)
    (h : f ∉ aggKeys l) : lookupAgg l f = none := by
  induction l with
  | nil => rfl
  | cons hd tl ih =>
    obtain ⟨g, v⟩ := hd
    simp only [aggKeys, List.map_cons, List.mem_cons] at h
    push_neg at h
    rw [lookupAgg_cons, if_neg (fun hc => h.1 hc.symm)]
    exact ih (by simpa [aggKeys] using h.2)

theorem lookupRate_filterMap_eq_none_of_not_mem (l : List (String × Nat × Nat)) (f : String)
    (h : f ∉ aggKeys l) : lookupRate (l.filterMap rateEntry) f = none := by
  induction l with
  | nil => rfl
  | cons hd tl ih =>
    obtain ⟨g, t, q⟩ := hd
    simp only [aggKeys, List.map_cons, List.mem_cons] at h
    push_neg at h
    have ihr := ih (by simpa [aggKeys] using h.2)
    by_cases ht : t = 0
    · simp [List.filterMap_cons, rateEntry, ht, ihr]
    · simp only [List.filterMap_cons, rateEntry]
      rw [if_neg (by simpa using ht)]
      rw [lookupRate_cons, if_neg (fun hc => h.1 hc.symm)]
      exact ihr

theorem lookupRate_filterMap_rateEntry (l : List (String × Nat × Nat)) (f : String)
    (hnd : (aggKeys l).Nodup) :
    lookupRate (l.filterMap rateEntry) f =
      match lookupAgg l f with
      | none => none
      | some v => if v.1 = 0 then none else some ((v.2 : ℚ) / (v.1 : ℚ)) := by
  induction l with
  | nil => rfl
  | cons hd tl ih =>
    obtain ⟨g, t, q⟩ := hd
    simp only [aggKeys, List.map_cons, List.nodup_cons] at hnd
    have ihr := ih hnd.2
    by_cases hgf : g = f
    · subst hgf
      rw [lookupAgg_cons, if_pos rfl]
      by_cases ht : t = 0
      · subst ht
        simp only [List.filterMap_cons, rateEntry]
        rw [if_pos (by simp)]
        rw [lookupRate_filterMap_eq_none_of_not_mem tl g (by simpa [aggKeys] using hnd.1)]
        simp
      · simp only [List.filterMap_cons, rateEntry]
        rw [if_neg (by simpa using ht)]
        rw [lookupRate_cons, if_pos rfl]
        simp [ht]
    · rw [lookupAgg_cons, if_neg hgf]
      by_cases ht : t = 0
      · simp only [List.filterMap_cons, rateEntry]
        rw [if_pos (by simpa using ht)]
        exact ihr
      · simp only [List.filterMap_cons, rateEntry]
        rw [if_neg (by simpa using ht)]
        rw [lookupRate_cons, if_neg hgf]
        exact ihr

theorem occursFiller_false_sums (rows : List FadesRowType) (m : List (String × String))
    (f : String) (h : occursFiller rows m f = false) :
    sumTotalQuotes rows m f = 0 ∧ sumFadedQuotes rows m f = 0 := by
  have hfil : rows.filter (fun r => resolveFiller m r.fillerAddress == some f) = [] := by
    rw [List.filter_eq_nil_iff]
    intro r hr
    simp only [occursFiller, List.any_eq_false] at h
    simpa using h r hr
  constructor <;> simp [sumTotalQuotes, sumFadedQuotes, hfil]

theorem lookupRate_calculateFillerFadeRates (rows : List FadesRowType)
    (m : List (String × String)) (f : String) :
    lookupRate (calculateFillerFadeRates rows m) f =
      if sumTotalQuotes rows m f = 0 then none
      else some ((sumFadedQuotes rows m f : ℚ) / (sumTotalQuotes rows m f : ℚ)) := by
  rw [calculateFillerFadeRates,
    lookupRate_filterMap_rateEntry _ _ (aggregateFadeRows_keys_nodup rows m)]
  rw [aggregateFadeRows, lookupAgg_foldl m f rows [], lookupAgg_nil]
  cases hocc : occursFiller rows m f with
  | false =>
    obtain ⟨h1, h2⟩ := occursFiller_false_sums rows m f hocc
    simp [h1]
  | true => simp

theorem sumTotalQuotes_perm (l1 l2 : List FadesRowType) (m : List (String × String))
    (f : String) (h : l1.Perm l2) : sumTotalQuotes l1 m f = sumTotalQuotes l2 m f := by
  unfold sumTotalQuotes
  exact ((h.filter _).map _).sum_eq

theorem sumFadedQuotes_perm (l1 l2 : List FadesRowType) (m : List (String × String))
    (f : String) (h : l1.Perm l2) : sumFadedQuotes l1 m f = sumFadedQuotes l2 m f := by
  unfold sumFadedQuotes
  exact ((h.filter _).map _).sum_eq

/-- C5: `calculateFillerFadeRates` groups rows by filler via the
address-to-filler map (unmapped rows ignored), sums totalQuotes and
fadedQuotes per filler across all its addresses, and returns
fadedQuotes/totalQuotes per filler, omitting zero-total fillers; for the
test rows the result is filler1 = 0.3 and filler2 = 0.05 under every
permutation of the input rows. -/
theorem calculateFillerFadeRates_spec :
    (∀ (rows : List FadesRowType) (m : List (String × String)) (f : String),
      lookupRate (calculateFillerFadeRates rows m) f =
        if sumTotalQuotes rows m f = 0 then none
        else some ((sumFadedQuotes rows m f : ℚ) / (sumTotalQuotes rows m f : ℚ)))
    ∧ (∀ (rows : List FadesRowType) (m : List (String × String)) (row : FadesRowType),
        resolveFiller m row.fillerAddress = none →
        calculateFillerFadeRates (row :: rows) m = calculateFillerFadeRates rows m)
    ∧ (∀ l : List FadesRowType, l.Perm FADES_ROWS →
        lookupRate (calculateFillerFadeRates l ADDRESS_TO_FILLER) "filler1" = some ((3 : ℚ)/10)
        ∧ lookupRate (calculateFillerFadeRates l ADDRESS_TO_FILLER) "filler2" = some ((1 : ℚ)/20)
        ∧ ∀ g, g ≠ "filler1" → g ≠ "filler2" →
            lookupRate (calculateFillerFadeRates l ADDRESS_TO_FILLER) g = none) := by
  refine ⟨lookupRate_calculateFillerFadeRates, ?_, ?_⟩
  · intro rows m row h
    simp [calculateFillerFadeRates, aggregateFadeRows, List.foldl_cons, fadeStep, h]
  · intro l hperm
    have h1 : sumTotalQuotes l ADDRESS_TO_FILLER "filler1" = 100 := by
      rw [sumTotalQuotes_perm _ _ _ _ hperm]; decide
    have h2 : sumFadedQuotes l ADDRESS_TO_FILLER "filler1" = 30 := by
      rw [sumFadedQuotes_perm _ _ _ _ hperm]; decide
    have h3 : sumTotalQuotes l ADDRESS_TO_FILLER "filler2" = 100 := by
      rw [sumTotalQuotes_perm _ _ _ _ hperm]; decide
    have h4 : sumFadedQuotes l ADDRESS_TO_FILLER "filler2" = 5 := by
      rw [sumFadedQuotes_perm _ _ _ _ hperm]; decide
    refine ⟨?_, ?_, ?_⟩
    · rw [lookupRate_calculateFillerFadeRates, h1, h2]; norm_num
    · rw [lookupRate_calculateFillerFadeRates, h3, h4]; norm_num
    · intro g hg1 hg2
      have hng1 : ¬((some "filler1" : Option String) = some g) := by
        simp; exact fun hc => hg1 hc.symm
      have hng2 : ¬((some "filler2" : Option String) = some g) := by
        simp; exact fun hc => hg2 hc.symm
      have hzero : sumTotalQuotes l ADDRESS_TO_FILLER g = 0 := by
        rw [sumTotalQuotes_perm _ _ _ _ hperm]
        rw [show FADES_ROWS =
          [⟨"0x1", 50, 10⟩, ⟨"0x2", 50, 20⟩, ⟨"0x3", 100, 5⟩] from rfl]
        rw [sumTotalQuotes_cons, sumTotalQuotes_cons, sumTotalQuotes_cons]
        rw [show resolveFiller ADDRESS_TO_FILLER
          (FadesRowType.mk "0x1" 50 10).fillerAddress = some "filler1" from rfl]
        rw [show resolveFiller ADDRESS_TO_FILLER
          (FadesRowType.mk "0x2" 50 20).fillerAddress = some "filler1" from rfl]
        rw [show resolveFiller ADDRESS_TO_FILLER
          (FadesRowType.mk "0x3" 100 5).fillerAddress = some "filler2" from rfl]
        rw [if_neg hng1, if_neg hng2]
        rfl
      rw [lookupRate_calculateFillerFadeRates, hzero]
      simp

/-- Witness for C5 at the test input itself. -/
theorem calculateFillerFadeRates_spec_witness :
    lookupRate (calculateFillerFadeRates FADES_ROWS ADDRESS_TO_FILLER) "filler1" =
      some ((3 : ℚ)/10) :=
  (calculateFillerFadeRates_spec.2.2 FADES_ROWS (List.Perm.refl _)).1



/-! Webhook quoter data model (spec sections 3 and 4):

The `WebhookQuoter`, its endpoint filtering and its response classifier are
not shipped under src/ (only `test/providers/quoters/WebhookQuoter.test.ts`,
the provider interfaces and glue are), so the definitions below are modelled
from the spec, with behaviour pinned by that test file. -/

/-- Trade direction of a quote request. -/
inductive TradeType where
  | EXACT_INPUT
  | EXACT_OUTPUT
  deriving DecidableEq, Repr

/-- An incoming quote request (`QuoteRequest` entity). -/
structure QuoteRequest where
  requestId : String
  tokenInChainId : Nat
  tokenOutChainId : Nat
  swapper : Option String
  tokenIn : String
  tokenOut : String
  amount : Nat
  tradeType : TradeType
  numOutputs : Nat
  deriving DecidableEq, Repr

/-- A configured filler endpoint (`WebhookConfiguration`). -/
structure WebhookConfiguration where
  name : String
  endpoint : String
  headers : List (String × String)
  chainIds : Option (List Nat) := none
  hash : String
  deriving DecidableEq, Repr

/-- Circuit-breaker state for one configuration hash
(`CircuitBreakerConfiguration` of `lib/providers/circuit-breaker`). -/
structure CircuitBreakerConfiguration where
  hash : String
  fadeRate : ℚ
  enabled : Bool
  deriving DecidableEq, Repr

/-- A compliance rule: endpoint set and excluded swapper addresses. -/
structure FillerComplianceConfiguration where
  endpoints : List String
  addresses : List String
  deriving DecidableEq, Repr

/-- The wire payload POSTed to a filler webhook. -/
structure WebhookQuoteRequestBody where
  requestId : String
  tokenInChainId : Nat
  tokenOutChainId : Nat
  swapper : Option String
  tokenIn : String
  tokenOut : String
  amount : Nat
  tradeType : TradeType
  numOutputs : Nat
  deriving DecidableEq, Repr

/-- Modelled from the spec: `QuoteRequest.toCleanJSON`, the canonical wire
payload of the request. -/
def QuoteRequest.toCleanJSON (r : QuoteRequest) : WebhookQuoteRequestBody :=
  { requestId := r.requestId
    tokenInChainId := r.tokenInChainId
    tokenOutChainId := r.tokenOutChainId
    swapper := r.swapper
    tokenIn := r.tokenIn
    tokenOut := r.tokenOut
    amount := r.amount
    tradeType := r.tradeType
    numOutputs := r.numOutputs }

/-- Modelled from the spec: `QuoteRequest.toOpposingCleanJSON`, the
direction-reversed ("opposing") payload with tokenIn/tokenOut swapped. -/
def QuoteRequest.toOpposingCleanJSON (r : QuoteRequest) : WebhookQuoteRequestBody :=
  { r.toCleanJSON with tokenIn := r.tokenOut, tokenOut := r.tokenIn }

/-- A raw webhook response body: every field of the quote schema is
optional at the wire level (a non-JSON body is modelled as all-absent). -/
structure RfqResponseBody where
  amountOut : Option Nat := none
  amountIn : Option Nat := none
  tokenIn : Option String := none
  tokenOut : Option String := none
  chainId : Option Nat := none
  requestId : Option String := none
  quoteId : Option String := none
  filler : Option String := none
  swapper : Option String := none
  deriving DecidableEq, Repr

/-- A field-level schema violation (field path, message, violation kind),
matching the shape asserted by the WebhookQuoter test. -/
structure FieldViolation where
  path : String
  message : String
  kind : String
  deriving DecidableEq, Repr

/-- The violation reported for a missing required field. -/
def requiredViolation (name : String) : FieldViolation :=
  { path := name
    message := "\"" ++ name ++ "\" is required"
    kind := "any.required" }

/-- Modelled from the spec: the required-field checks of the response
schema (amountOut, amountIn, tokenIn, tokenOut, chainId, requestId,
quoteId, filler; swapper is optional), in schema order. -/
def requiredFieldViolations (b : RfqResponseBody) : List FieldViolation :=
  (if b.amountOut.isNone then [requiredViolation "amountOut"] else []) ++
  (if b.amountIn.isNone then [requiredViolation "amountIn"] else []) ++
  (if b.tokenIn.isNone then [requiredViolation "tokenIn"] else []) ++
  (if b.tokenOut.isNone then [requiredViolation "tokenOut"] else []) ++
  (if b.chainId.isNone then [requiredViolation "chainId"] else []) ++
  (if b.requestId.isNone then [requiredViolation "requestId"] else []) ++
  (if b.quoteId.isNone then [requiredViolation "quoteId"] else []) ++
  (if b.filler.isNone then [requiredViolation "filler"] else [])

/-- A schema-valid response body with all required fields present. -/
structure ParsedQuoteResponse where
  amountOut : Nat
  amountIn : Nat
  tokenIn : String
  tokenOut : String
  chainId : Nat
  requestId : String
  quoteId : String
  filler : String
  swapper : Option String
  deriving DecidableEq, Repr

/-- Modelled from the spec: the structured validator, producing either the
parsed quote or the list of field-level violations. -/
def parseRfqResponse (b : RfqResponseBody) :
    Except (List FieldViolation) ParsedQuoteResponse :=
  if (requiredFieldViolations b).isEmpty then
    Except.ok
      { amountOut := b.amountOut.getD 0
        amountIn := b.amountIn.getD 0
        tokenIn := b.tokenIn.getD ""
        tokenOut := b.tokenOut.getD ""
        chainId := b.chainId.getD 0
        requestId := b.requestId.getD ""
        quoteId := b.quoteId.getD ""
        filler := b.filler.getD ""
        swapper := b.swapper }
  else Except.error (requiredFieldViolations b)

/-- The outcome of one HTTP call to a filler webhook: a response with a
status and body, a timeout, or a transport error. -/
inductive WebhookCallResult where
  | success (status : Nat) (body : RfqResponseBody)
  | timeout
  | connectionError
  deriving DecidableEq, Repr

/-- Classification of one raw response against the originating request. -/
inductive Classification where
  | valid (p : ParsedQuoteResponse)
  | validationError (violations : List FieldViolation)
  | requestIdMismatch (mismatchedRequestId : String)
  | nonQuote
  deriving DecidableEq, Repr

/-- The analytics response-type tag. -/
inductive WebhookResponseType where
  | VALID
  | VALIDATION_ERROR
  | REQUEST_ID_MISMATCH
  | NON_QUOTE
  deriving DecidableEq, Repr

/-- The tag of a classification. -/
def Classification.responseType : Classification → WebhookResponseType
  | .valid _ => .VALID
  | .validationError _ => .VALIDATION_ERROR
  | .requestIdMismatch _ => .REQUEST_ID_MISMATCH
  | .nonQuote => .NON_QUOTE

/-- Whether a classification is a validation error. -/
def Classification.isValidationError : Classification → Bool
  | .validationError _ => true
  | _ => false

/-- Whether an HTTP status is a success status. -/
def is2xx (status : Nat) : Bool :=
  200 ≤ status && status < 300

/-- Whether the relevant amount of a schema-valid body is zero for the
trade direction (the filler declined to quote). -/
def quoteIsZero (req : QuoteRequest) (p : ParsedQuoteResponse) : Bool :=
  match req.tradeType with
  | .EXACT_INPUT => p.amountOut == 0
  | .EXACT_OUTPUT => p.amountIn == 0

/-- Modelled from the spec: the response classifier (spec section 4.3).
Status is checked first (the 404 test pins NON_QUOTE over
VALIDATION_ERROR for a non-2xx response with a schema-invalid body),
then schema, then requestId, then the zero-amount rule. -/
def classifyResponse (req : QuoteRequest) (status : Nat) (b : RfqResponseBody) :
    Classification :=
  if !is2xx status then .nonQuote
  else
    match parseRfqResponse b with
    | .error vs => .validationError vs
    | .ok p =>
      if p.requestId != req.requestId then .requestIdMismatch p.requestId
      else if quoteIsZero req p then .nonQuote
      else .valid p

/-- Modelled from the spec: a timed-out or transport-failed call is treated
as a non-2xx outcome and classified NON_QUOTE (spec section 5). -/
def classifyCallResult (req : QuoteRequest) : WebhookCallResult → Classification
  | .success status body => classifyResponse req status body
  | .timeout => .nonQuote
  | .connectionError => .nonQuote


/-! Dispatcher and WebhookQuoter (spec sections 4.1, 4.2) -/

/-- The fixed per-call webhook timeout, in milliseconds. -/
def WEBHOOK_TIMEOUT_MS : Nat := 500

/-- The quote returned to the caller; the swapper is the request own
swapper (the response swapper field is overridden). -/
structure QuoteResponse where
  quoteId : String
  requestId : String
  chainId : Nat
  tokenIn : String
  tokenOut : String
  amountIn : Nat
  amountOut : Nat
  swapper : Option String
  filler : String
  deriving DecidableEq, Repr

/-- Build the returned quote from a VALID-classified response, attaching
the request swapper. -/
def quoteFromResponse (req : QuoteRequest) (p : ParsedQuoteResponse) : QuoteResponse :=
  { quoteId := p.quoteId
    requestId := p.requestId
    chainId := p.chainId
    tokenIn := p.tokenIn
    tokenOut := p.tokenOut
    amountIn := p.amountIn
    amountOut := p.amountOut
    swapper := req.swapper
    filler := p.filler }

/-- Whether a schema-valid response echoes the request declared direction
(returned tokenIn/tokenOut exactly equal the request tokenIn/tokenOut). -/
def directionMatches (req : QuoteRequest) (p : ParsedQuoteResponse) : Bool :=
  p.tokenIn == req.tokenIn && p.tokenOut == req.tokenOut

/-- A classification yields a quote exactly when it is VALID and the
response matches the request declared direction. -/
def acceptQuote (req : QuoteRequest) : Classification → Option QuoteResponse
  | .valid p => if directionMatches req p then some (quoteFromResponse req p) else none
  | _ => none

/-- One analytics event per raw response received (spec section 3,
`AnalyticsEvent`); `status` is absent for timeouts and transport errors. -/
structure AnalyticsEvent where
  eventType : String
  name : String
  endpoint : String
  status : Option Nat
  responseType : WebhookResponseType
  validationError : List FieldViolation
  mismatchedRequestId : Option String
  timeoutSettingMs : Nat
  deriving DecidableEq, Repr

/-- The HTTP status carried by a call result, if any. -/
def WebhookCallResult.statusOf : WebhookCallResult → Option Nat
  | .success s _ => some s
  | .timeout => none
  | .connectionError => none

/-- Modelled from the spec: the WEBHOOK_RESPONSE analytics event for one
raw response, tagged with the classification outcome. -/
def mkWebhookResponseEvent (cfg : WebhookConfiguration) (res : WebhookCallResult)
    (c : Classification) : AnalyticsEvent :=
  { eventType := "WEBHOOK_RESPONSE"
    name := cfg.name
    endpoint := cfg.endpoint
    status := res.statusOf
    responseType := c.responseType
    validationError := match c with | .validationError vs => vs | _ => []
    mismatchedRequestId := match c with | .requestIdMismatch i => some i | _ => none
    timeoutSettingMs := WEBHOOK_TIMEOUT_MS }

/-- The direction of one of the two per-endpoint calls. -/
inductive RequestDirection where
  | clean
  | opposing
  deriving DecidableEq, Repr

/-- The network behaviour for one `quote` call: the raw outcome of the
POST to each endpoint URL in each direction. -/
abbrev WebhookNetwork := String → RequestDirection → WebhookCallResult

/-- Chain filter: an endpoint with a chainIds allow-list accepts only
requests whose tokenInChainId is a member; without one, any chain. -/
def chainIdEligible (cfg : WebhookConfiguration) (req : QuoteRequest) : Bool :=
  match cfg.chainIds with
  | none => true
  | some ids => ids.contains req.tokenInChainId

/-- Circuit-breaker filter: include the endpoint when its hash is in the
allow-list override, or absent from circuit-breaker state (fail-open
default), or present with enabled true. -/
def circuitBreakerEnabled (cbConfigs : List CircuitBreakerConfiguration)
    (allowList : List String) (cfg : WebhookConfiguration) : Bool :=
  allowList.contains cfg.hash ||
    match cbConfigs.find? (fun c => c.hash == cfg.hash) with
    | none => true
    | some c => c.enabled

/-- Compliance filter: the endpoint is excluded when the request has a
swapper and some rule lists both the endpoint and that swapper; a request
without a swapper is never compliance-excluded. -/
def complianceExcluded (complianceConfigs : List FillerComplianceConfiguration)
    (cfg : WebhookConfiguration) (req : QuoteRequest) : Bool :=
  match req.swapper with
  | none => false
  | some s =>
    complianceConfigs.any (fun r => r.endpoints.contains cfg.endpoint && r.addresses.contains s)

/-- The WebhookQuoter and its construction-time collaborators: the endpoint
list, circuit-breaker state, compliance rules, and the allow-list override
set supplied at construction. -/
structure WebhookQuoter where
  endpoints : List WebhookConfiguration
  circuitBreakerConfigs : List CircuitBreakerConfiguration
  complianceConfigs : List FillerComplianceConfiguration
  allowList : List String := []

/-- Modelled from the spec: pre-dispatch endpoint filtering (spec section
4.1) — chain match, circuit breaker, compliance, in conjunction. -/
def WebhookQuoter.getEligibleEndpoints (q : WebhookQuoter) (req : QuoteRequest) :
    List WebhookConfiguration :=
  q.endpoints.filter (fun cfg =>
    chainIdEligible cfg req &&
    circuitBreakerEnabled q.circuitBreakerConfigs q.allowList cfg &&
    !complianceExcluded q.complianceConfigs cfg req)

/-- One HTTP POST issued by the dispatcher. -/
structure DispatchedCall where
  url : String
  body : WebhookQuoteRequestBody
  headers : List (String × String)
  timeoutMs : Nat
  deriving DecidableEq, Repr

/-- The POST of the canonical (clean) payload to an endpoint. -/
def cleanCall (req : QuoteRequest) (cfg : WebhookConfiguration) : DispatchedCall :=
  { url := cfg.endpoint, body := req.toCleanJSON, headers := cfg.headers,
    timeoutMs := WEBHOOK_TIMEOUT_MS }

/-- The POST of the opposing (direction-reversed) payload to an endpoint. -/
def opposingCall (req : QuoteRequest) (cfg : WebhookConfiguration) : DispatchedCall :=
  { url := cfg.endpoint, body := req.toOpposingCleanJSON, headers := cfg.headers,
    timeoutMs := WEBHOOK_TIMEOUT_MS }

/-- Modelled from the spec: the calls the dispatcher issues — for every
eligible endpoint, two concurrent POSTs (canonical and opposing payload),
each with the endpoint headers and the 500 ms timeout. The test file pins
that both are issued also when the request has a swapper. -/
def WebhookQuoter.dispatchedCalls (q : WebhookQuoter) (req : QuoteRequest) :
    List DispatchedCall :=
  ((q.getEligibleEndpoints req).map (fun cfg => [cleanCall req cfg, opposingCall req cfg])).flatten

/-- The outcome of querying one endpoint: the two analytics events (one per
raw response) and at most one accepted quote. -/
structure EndpointOutcome where
  events : List AnalyticsEvent
  quote : Option QuoteResponse
  deriving DecidableEq, Repr

/-- Modelled from the spec: `WebhookQuoter.fetchQuotes` for one endpoint —
classify both directional responses independently against the original
request, emit one event per response, and accept for quote construction
the direction-matching VALID response (the clean-payload response takes
precedence, keeping at most one quote per endpoint per call). -/
def fetchQuotes (req : QuoteRequest) (cfg : WebhookConfiguration)
    (net : WebhookNetwork) : EndpointOutcome :=
  let cleanResult := net cfg.endpoint .clean
  let opposingResult := net cfg.endpoint .opposing
  let cleanClass := classifyCallResult req cleanResult
  let opposingClass := classifyCallResult req opposingResult
  { events := [mkWebhookResponseEvent cfg cleanResult cleanClass,
               mkWebhookResponseEvent cfg opposingResult opposingClass]
    quote := (acceptQuote req cleanClass).orElse (fun _ => acceptQuote req opposingClass) }

/-- The result of one `quote` call: the returned quotes and the emitted
analytics events. -/
structure QuoteResult where
  quotes : List QuoteResponse
  events : List AnalyticsEvent
  deriving DecidableEq, Repr

/-- Modelled from the spec: `WebhookQuoter.quote` — filter endpoints, query
every eligible endpoint, collect the accepted quotes and all analytics
events. Per-endpoint failures are absorbed by classification (no
exception escapes), so the function is total in the network behaviour. -/
def WebhookQuoter.quote (q : WebhookQuoter) (req : QuoteRequest)
    (net : WebhookNetwork) : QuoteResult :=
  let outcomes := (q.getEligibleEndpoints req).map (fun cfg => fetchQuotes req cfg net)
  { quotes := (outcomes.map (fun o => o.quote)).reduceOption
    events := (outcomes.map (fun o => o.events)).flatten }

/-- A per-endpoint failure: transport failure, timeout, non-2xx status, or
schema-invalid response body. -/
def perEndpointFailure : WebhookCallResult → Bool
  | .timeout => true
  | .connectionError => true
  | .success status body =>
    !is2xx status || !(requiredFieldViolations body).isEmpty


theorem fetchQuotes_events_length (req : QuoteRequest) (cfg : WebhookConfiguration)
    (net : WebhookNetwork) : (fetchQuotes req cfg net).events.length = 2 := rfl

theorem events_flatten_length (req : QuoteRequest) (net : WebhookNetwork) :
    ∀ l : List WebhookConfiguration,
    (((l.map (fun cfg => fetchQuotes req cfg net)).map (fun o => o.events)).flatten).length =
      2 * l.length := by
  intro l
  induction l with
  | nil => rfl
  | cons c l ih =>
    simp only [List.map_cons, List.flatten_cons, List.length_append, ih,
      fetchQuotes_events_length, List.length_cons]
    omega

theorem quote_events_length (q : WebhookQuoter) (req : QuoteRequest) (net : WebhookNetwork) :
    (q.quote req net).events.length = 2 * (q.getEligibleEndpoints req).length :=
  events_flatten_length req net (q.getEligibleEndpoints req)

theorem dispatchedCalls_length (q : WebhookQuoter) (req : QuoteRequest) :
    (q.dispatchedCalls req).length = 2 * (q.getEligibleEndpoints req).length := by
  unfold WebhookQuoter.dispatchedCalls
  induction q.getEligibleEndpoints req with
  | nil => rfl
  | cons c l ih =>
    simp only [List.map_cons, List.flatten_cons, List.length_append, ih, List.length_cons,
      List.length_nil]
    omega

theorem mem_quote_events (q : WebhookQuoter) (req : QuoteRequest) (net : WebhookNetwork)
    (ev : AnalyticsEvent) (h : ev ∈ (q.quote req net).events) :
    ∃ cfg ∈ q.getEligibleEndpoints req, ev.endpoint = cfg.endpoint ∧ ev.name = cfg.name := by
  simp only [WebhookQuoter.quote, List.map_map, List.mem_flatten, List.mem_map,
    Function.comp] at h
  obtain ⟨es, ⟨cfg, hcfg, hes⟩, hev⟩ := h
  refine ⟨cfg, hcfg, ?_⟩
  subst hes
  simp only [fetchQuotes, List.mem_cons, List.mem_singleton] at hev
  rcases hev with h | h | h
  · subst h; exact ⟨rfl, rfl⟩
  · subst h; exact ⟨rfl, rfl⟩
  · exact absurd h (List.not_mem_nil ev)


/-- Concrete instances mirroring the WebhookQuoter test fixtures, used by
the witnesses below. -/
def exampleRequest : QuoteRequest :=
  { requestId := "a83f397c-8ef4-4801-a9b7-6e79155049f6"
    tokenInChainId := 1
    tokenOutChainId := 1
    swapper := some "0x0000000000000000000000000000000000000000"
    tokenIn := "0x1f9840a85d5aF5bf1D1762F925BDADdC4201F984"
    tokenOut := "0xC02aaA39b223FE8D0A0e5C4F27eAD9083C756Cc2"
    amount := 1000000000000000000
    tradeType := .EXACT_INPUT
    numOutputs := 1 }

def exampleBody : RfqResponseBody :=
  { amountOut := some 2000000000000000000
    amountIn := some 1000000000000000000
    tokenIn := some "0x1f9840a85d5aF5bf1D1762F925BDADdC4201F984"
    tokenOut := some "0xC02aaA39b223FE8D0A0e5C4F27eAD9083C756Cc2"
    chainId := some 1
    requestId := some "a83f397c-8ef4-4801-a9b7-6e79155049f6"
    quoteId := some "qid"
    filler := some "0x0000000000000000000000000000000000000001"
    swapper := some "0x0000000000000000000000000000000000000000" }

def exampleQuoter : WebhookQuoter :=
  { endpoints :=
      [{ name := "uniswap", endpoint := "https://uniswap.org", headers := [], hash := "0xuni" },
       { name := "1inch", endpoint := "https://1inch.io", headers := [], hash := "0x1inch" },
       { name := "searcher", endpoint := "https://searcher.com", headers := [],
         hash := "0xsearcher" }]
    circuitBreakerConfigs :=
      [{ hash := "0xuni", fadeRate := 0, enabled := true },
       { hash := "0x1inch", fadeRate := 0, enabled := false },
       { hash := "0xsearcher", fadeRate := 0, enabled := true }]
    complianceConfigs := [] }

def exampleNet : WebhookNetwork := fun _ d =>
  match d with
  | .clean => .success 200 exampleBody
  | .opposing => .timeout

/-- C1: every dispatched HTTP call yields exactly one AnalyticsEvent (two
per eligible endpoint: one per raw response, timeouts included), and every
event belongs to an eligible endpoint — endpoints filtered out before
dispatch produce none. -/
theorem one_event_per_dispatched_call (q : WebhookQuoter) (req : QuoteRequest)
    (net : WebhookNetwork) :
    (q.quote req net).events.length = (q.dispatchedCalls req).length
    ∧ (q.quote req net).events.length = 2 * (q.getEligibleEndpoints req).length
    ∧ (∀ ev ∈ (q.quote req net).events,
        ∃ cfg ∈ q.getEligibleEndpoints req, ev.endpoint = cfg.endpoint ∧ ev.name = cfg.name) :=
  ⟨(quote_events_length q req net).trans (dispatchedCalls_length q req).symm,
   quote_events_length q req net,
   mem_quote_events q req net⟩

/-- Witness for C1 at the test fixture: the uniswap clean-call event is in
the emitted events, and the theorem locates it at an eligible endpoint. -/
theorem one_event_per_dispatched_call_witness :
    ∃ cfg ∈ exampleQuoter.getEligibleEndpoints exampleRequest,
      (mkWebhookResponseEvent
        { name := "uniswap", endpoint := "https://uniswap.org", headers := [], hash := "0xuni" }
        (WebhookCallResult.success 200 exampleBody)
        (classifyCallResult exampleRequest (WebhookCallResult.success 200 exampleBody))).endpoint
        = cfg.endpoint ∧
      (mkWebhookResponseEvent
        { name := "uniswap", endpoint := "https://uniswap.org", headers := [], hash := "0xuni" }
        (WebhookCallResult.success 200 exampleBody)
        (classifyCallResult exampleRequest (WebhookCallResult.success 200 exampleBody))).name
        = cfg.name :=
  (one_event_per_dispatched_call exampleQuoter exampleRequest exampleNet).2.2 _ (by decide)



theorem acceptQuote_of_failure (req : QuoteRequest) (res : WebhookCallResult)
    (h : perEndpointFailure res = true) :
    acceptQuote req (classifyCallResult req res) = none := by
  cases res with
  | timeout => rfl
  | connectionError => rfl
  | success s b =>
    simp only [perEndpointFailure, Bool.or_eq_true, Bool.not_eq_true'] at h
    cases his : is2xx s with
    | false => simp [classifyCallResult, classifyResponse, his, acceptQuote]
    | true =>
      have hvs : (requiredFieldViolations b).isEmpty = false := by
        rcases h with h | h
        · rw [his] at h; exact absurd h (by simp)
        · exact h
      simp [classifyCallResult, classifyResponse, his, parseRfqResponse, hvs, acceptQuote]

/-- C2: `quote` is total in the network behaviour (per-endpoint transport
failures, timeouts, non-2xx statuses and invalid bodies are absorbed by
classification, never raised); an endpoint both of whose responses fail
contributes no quote; and the result is the independent per-endpoint
collection, so one endpoint failing aborts nothing. -/
theorem quote_absorbs_endpoint_failures (q : WebhookQuoter) (req : QuoteRequest)
    (net : WebhookNetwork) (cfg : WebhookConfiguration)
    (hmem : cfg ∈ q.getEligibleEndpoints req)
    (h1 : perEndpointFailure (net cfg.endpoint .clean) = true)
    (h2 : perEndpointFailure (net cfg.endpoint .opposing) = true) :
    (fetchQuotes req cfg net).quote = none
    ∧ (q.quote req net).quotes =
        ((q.getEligibleEndpoints req).map (fun c => (fetchQuotes req c net).quote)).reduceOption
    ∧ ∀ qt ∈ (q.quote req net).quotes,
        ∃ c ∈ q.getEligibleEndpoints req, (fetchQuotes req c net).quote = some qt := by
  refine ⟨?_, ?_, ?_⟩
  · simp [fetchQuotes, acceptQuote_of_failure req _ h1, acceptQuote_of_failure req _ h2,
      Option.orElse]
  · simp only [WebhookQuoter.quote, List.map_map]
    rfl
  · intro qt hqt
    simp only [WebhookQuoter.quote, List.map_map, Function.comp,
      List.reduceOption_mem_iff, List.mem_map] at hqt
    obtain ⟨c, hc, hsome⟩ := hqt
    exact ⟨c, hc, hsome⟩

/-- Witness for C2: with every call timing out, the uniswap endpoint
contributes no quote and the overall result is still well-formed. -/
theorem quote_absorbs_endpoint_failures_witness :
    (fetchQuotes exampleRequest
      { name := "uniswap", endpoint := "https://uniswap.org", headers := [], hash := "0xuni" }
      (fun _ _ => WebhookCallResult.timeout)).quote = none :=
  (quote_absorbs_endpoint_failures exampleQuoter exampleRequest
    (fun _ _ => WebhookCallResult.timeout)
    { name := "uniswap", endpoint := "https://uniswap.org", headers := [], hash := "0xuni" }
    (by decide) (by decide) (by decide)).1



/-- Circuit-breaker state lookup by configuration hash. -/
def cbLookup (cb : List CircuitBreakerConfiguration) (h : String) :
    Option CircuitBreakerConfiguration :=
  cb.find? (fun c => c.hash == h)

/-- C3: the circuit-breaker filter admits an endpoint iff its hash is
absent from circuit-breaker state (fail-open), or present with enabled
true, or in the allow-list override; an endpoint with enabled false is
dispatched iff its hash is in the override (all other filters passing). -/
theorem circuit_breaker_admits_iff (cb : List CircuitBreakerConfiguration)
    (allow : List String) (cfg : WebhookConfiguration) :
    (circuitBreakerEnabled cb allow cfg = true ↔
      cbLookup cb cfg.hash = none
      ∨ (∃ c, cbLookup cb cfg.hash = some c ∧ c.enabled = true)
      ∨ cfg.hash ∈ allow)
    ∧ (∀ c, cbLookup cb cfg.hash = some c → c.enabled = false →
        (circuitBreakerEnabled cb allow cfg = true ↔ cfg.hash ∈ allow))
    ∧ (∀ (q : WebhookQuoter) (req : QuoteRequest) (c : CircuitBreakerConfiguration),
        q.circuitBreakerConfigs = cb → q.allowList = allow →
        cbLookup cb cfg.hash = some c → c.enabled = false →
        cfg ∈ q.endpoints → chainIdEligible cfg req = true →
        complianceExcluded q.complianceConfigs cfg req = false →
        (cfg ∈ q.getEligibleEndpoints req ↔ cfg.hash ∈ allow)) := by
  refine ⟨?_, ?_, ?_⟩
  · cases hfind : cbLookup cb cfg.hash with
    | none =>
      simp only [cbLookup] at hfind
      simp [circuitBreakerEnabled, hfind]
    | some c =>
      simp only [cbLookup] at hfind
      cases hen : c.enabled <;>
        simp [circuitBreakerEnabled, hfind, hen]
  · intro c hfind hen
    simp only [cbLookup] at hfind
    simp [circuitBreakerEnabled, hfind, hen]
  · intro q req c hcb hal hfind hen hmem hchain hcomp
    subst hcb; subst hal
    simp only [cbLookup] at hfind
    simp [WebhookQuoter.getEligibleEndpoints, List.mem_filter, hmem, hchain, hcomp,
      circuitBreakerEnabled, hfind, hen]

/-- Witness for C3, mirroring the allow-list test: the 1inch endpoint is
disabled in circuit-breaker state yet eligible because its hash is in the
allow-list override. -/
theorem circuit_breaker_admits_iff_witness :
    ({ name := "1inch", endpoint := "https://1inch.io", headers := [],
       hash := "0x1inch" } : WebhookConfiguration) ∈
      ({ exampleQuoter with allowList := ["0x1inch"] } : WebhookQuoter).getEligibleEndpoints
        exampleRequest
    ↔ "0x1inch" ∈ ["0x1inch"] :=
  (circuit_breaker_admits_iff exampleQuoter.circuitBreakerConfigs ["0x1inch"]
    { name := "1inch", endpoint := "https://1inch.io", headers := [], hash := "0x1inch" }).2.2
    { exampleQuoter with allowList := ["0x1inch"] } exampleRequest
    { hash := "0x1inch", fadeRate := 0, enabled := false }
    rfl rfl (by decide) rfl (by decide) rfl rfl



theorem acceptQuote_eq_some (req : QuoteRequest) (c : Classification) (qt : QuoteResponse) :
    acceptQuote req c = some qt ↔
      ∃ p, c = .valid p ∧ directionMatches req p = true ∧ qt = quoteFromResponse req p := by
  cases c with
  | valid p =>
    cases hd : directionMatches req p <;> simp [acceptQuote, hd]
    exact eq_comm
  | validationError vs => simp [acceptQuote]
  | requestIdMismatch i => simp [acceptQuote]
  | nonQuote => simp [acceptQuote]

theorem acceptQuote_none_of_no_match (req : QuoteRequest) (c : Classification)
    (h : ∀ p, c = .valid p → directionMatches req p = false) :
    acceptQuote req c = none := by
  cases c with
  | valid p => simp [acceptQuote, h p rfl]
  | validationError vs => rfl
  | requestIdMismatch i => rfl
  | nonQuote => rfl

/-- C4: per endpoint, at most one quote is produced; an accepted quote
always echoes the request direction; the clean response is accepted when
VALID and direction-matching, the opposing one only when the clean yields
nothing; when neither response direction-matches, both are still
classified (two events) and no quote results. -/
theorem direction_match_selection (req : QuoteRequest) (cfg : WebhookConfiguration)
    (net : WebhookNetwork) :
    (fetchQuotes req cfg net).quote.toList.length ≤ 1
    ∧ (∀ qt, (fetchQuotes req cfg net).quote = some qt →
        qt.tokenIn = req.tokenIn ∧ qt.tokenOut = req.tokenOut)
    ∧ (∀ p, classifyCallResult req (net cfg.endpoint .clean) = .valid p →
        directionMatches req p = true →
        (fetchQuotes req cfg net).quote = some (quoteFromResponse req p))
    ∧ (∀ p, classifyCallResult req (net cfg.endpoint .opposing) = .valid p →
        directionMatches req p = true →
        acceptQuote req (classifyCallResult req (net cfg.endpoint .clean)) = none →
        (fetchQuotes req cfg net).quote = some (quoteFromResponse req p))
    ∧ ((∀ p, classifyCallResult req (net cfg.endpoint .clean) = .valid p →
          directionMatches req p = false) →
       (∀ p, classifyCallResult req (net cfg.endpoint .opposing) = .valid p →
          directionMatches req p = false) →
       (fetchQuotes req cfg net).quote = none
       ∧ (fetchQuotes req cfg net).events.length = 2) := by
  refine ⟨?_, ?_, ?_, ?_, ?_⟩
  · cases h : (fetchQuotes req cfg net).quote <;> simp [Option.toList]
  · intro qt hqt
    simp only [fetchQuotes] at hqt
    have : acceptQuote req (classifyCallResult req (net cfg.endpoint .clean)) = some qt
        ∨ acceptQuote req (classifyCallResult req (net cfg.endpoint .opposing)) = some qt := by
      cases hc : acceptQuote req (classifyCallResult req (net cfg.endpoint .clean)) with
      | none => rw [hc] at hqt; right; exact hqt
      | some v => rw [hc] at hqt; left; exact hqt
    rcases this with h | h <;>
    · rw [acceptQuote_eq_some] at h
      obtain ⟨p, _, hd, hqt⟩ := h
      simp only [directionMatches, Bool.and_eq_true, beq_iff_eq] at hd
      subst hqt
      exact ⟨hd.1, hd.2⟩
  · intro p hp hd
    have : acceptQuote req (classifyCallResult req (net cfg.endpoint .clean)) =
        some (quoteFromResponse req p) := by
      rw [hp]; simp [acceptQuote, hd]
    simp [fetchQuotes, this, Option.orElse]
  · intro p hp hd hnone
    have : acceptQuote req (classifyCallResult req (net cfg.endpoint .opposing)) =
        some (quoteFromResponse req p) := by
      rw [hp]; simp [acceptQuote, hd]
    simp [fetchQuotes, hnone, this, Option.orElse]
  · intro hc ho
    refine ⟨?_, rfl⟩
    have h1 := acceptQuote_none_of_no_match req _ hc
    have h2 := acceptQuote_none_of_no_match req _ ho
    simp [fetchQuotes, h1, h2, Option.orElse]


/-- The parse of `exampleBody`. -/
def exampleParsed : ParsedQuoteResponse :=
  { amountOut := 2000000000000000000
    amountIn := 1000000000000000000
    tokenIn := "0x1f9840a85d5aF5bf1D1762F925BDADdC4201F984"
    tokenOut := "0xC02aaA39b223FE8D0A0e5C4F27eAD9083C756Cc2"
    chainId := 1
    requestId := "a83f397c-8ef4-4801-a9b7-6e79155049f6"
    quoteId := "qid"
    filler := "0x0000000000000000000000000000000000000001"
    swapper := some "0x0000000000000000000000000000000000000000" }

/-- A network where the clean call times out and the opposing call returns
a valid direction-matching body. -/
def exampleOppNet : WebhookNetwork := fun _ d =>
  match d with
  | .clean => WebhookCallResult.timeout
  | .opposing => WebhookCallResult.success 200 exampleBody

/-- Witness for C4: the opposing response, being the direction-matching
VALID one while the clean call timed out, is the accepted quote. -/
theorem direction_match_selection_witness :
    (fetchQuotes exampleRequest
      { name := "uniswap", endpoint := "https://uniswap.org", headers := [], hash := "0xuni" }
      exampleOppNet).quote = some (quoteFromResponse exampleRequest exampleParsed) :=
  (direction_match_selection exampleRequest
    { name := "uniswap", endpoint := "https://uniswap.org", headers := [], hash := "0xuni" }
    exampleOppNet).2.2.2.1 exampleParsed (by decide) (by decide) (by decide)



/-- The body is missing at least one required field of the quote schema. -/
def missingRequiredField (b : RfqResponseBody) : Prop :=
  b.amountOut = none ∨ b.amountIn = none ∨ b.tokenIn = none ∨ b.tokenOut = none ∨
  b.chainId = none ∨ b.requestId = none ∨ b.quoteId = none ∨ b.filler = none

theorem requiredFieldViolations_ne_nil (b : RfqResponseBody)
    (h : missingRequiredField b) : requiredFieldViolations b ≠ [] := by
  intro hnil
  rcases h with h|h|h|h|h|h|h|h <;>
    simp [requiredFieldViolations, h, List.append_eq_nil] at hnil

/-- C6 (amended to 2xx responses): a success-status response missing any
required field classifies VALIDATION_ERROR, with a non-empty field-level
violation list, and contributes no quote. -/
theorem validation_error_on_missing_field (req : QuoteRequest) (status : Nat)
    (b : RfqResponseBody) (h2xx : is2xx status = true) (hmiss : missingRequiredField b) :
    classifyResponse req status b = .validationError (requiredFieldViolations b)
    ∧ requiredFieldViolations b ≠ []
    ∧ acceptQuote req (classifyResponse req status b) = none := by
  have hne := requiredFieldViolations_ne_nil b hmiss
  have hisE : (requiredFieldViolations b).isEmpty = false := by
    cases hL : requiredFieldViolations b with
    | nil => exact absurd hL hne
    | cons a l => rfl
  refine ⟨?_, hne, ?_⟩ <;>
    simp [classifyResponse, h2xx, parseRfqResponse, hisE, acceptQuote]

/-- The all-absent body (a non-JSON or empty response body). -/
def emptyBody : RfqResponseBody := {}

/-- Counterexample to C6 as stated: a 404 response whose body misses every
required field is classified NON_QUOTE, not VALIDATION_ERROR (status is
checked first, as the 404 test pins). -/
theorem validation_error_on_missing_field_counterexample :
    emptyBody.amountIn = none
    ∧ classifyResponse exampleRequest 404 emptyBody = Classification.nonQuote
    ∧ (classifyResponse exampleRequest 404 emptyBody).isValidationError = false := by
  decide

/-- Witness for C6 (amended), mirroring the missing-amountIn test. -/
theorem validation_error_on_missing_field_witness :
    classifyResponse exampleRequest 200 { exampleBody with amountIn := none } =
      Classification.validationError
        (requiredFieldViolations { exampleBody with amountIn := none })
    ∧ requiredFieldViolations { exampleBody with amountIn := none } ≠ []
    ∧ acceptQuote exampleRequest
        (classifyResponse exampleRequest 200 { exampleBody with amountIn := none }) = none :=
  validation_error_on_missing_field exampleRequest 200
    { exampleBody with amountIn := none } (by decide) (Or.inr (Or.inl rfl))



/-- C7 (amended to 2xx responses): a success-status, schema-valid response
whose requestId differs from the request classifies REQUEST_ID_MISMATCH,
the mismatched id is carried on the analytics event, and no quote results. -/
theorem request_id_mismatch_spec (req : QuoteRequest) (status : Nat) (b : RfqResponseBody)
    (p : ParsedQuoteResponse) (h2xx : is2xx status = true)
    (hok : parseRfqResponse b = Except.ok p) (hne : p.requestId ≠ req.requestId) :
    classifyResponse req status b = .requestIdMismatch p.requestId
    ∧ (∀ cfg, (mkWebhookResponseEvent cfg (.success status b)
        (classifyResponse req status b)).mismatchedRequestId = some p.requestId)
    ∧ acceptQuote req (classifyResponse req status b) = none := by
  have hcl : classifyResponse req status b = .requestIdMismatch p.requestId := by
    simp [classifyResponse, h2xx, hok, bne_iff_ne, hne]
  refine ⟨hcl, ?_, ?_⟩
  · intro cfg
    rw [hcl]
    rfl
  · rw [hcl]
    rfl

/-- The test body with the mismatched requestId. -/
def mismatchBody : RfqResponseBody :=
  { exampleBody with requestId := some "a83f397c-8ef4-4801-a9b7-6e7915504420" }

/-- Counterexample to C7 as stated: a schema-valid 404 response with a
mismatched requestId classifies NON_QUOTE (status checked first), not
REQUEST_ID_MISMATCH. -/
theorem request_id_mismatch_counterexample :
    parseRfqResponse mismatchBody =
      Except.ok { exampleParsed with requestId := "a83f397c-8ef4-4801-a9b7-6e7915504420" }
    ∧ "a83f397c-8ef4-4801-a9b7-6e7915504420" ≠ exampleRequest.requestId
    ∧ classifyResponse exampleRequest 404 mismatchBody = Classification.nonQuote :=
  ⟨rfl, by decide, by decide⟩

/-- Witness for C7 (amended), mirroring the mismatched-requestId test. -/
theorem request_id_mismatch_spec_witness :
    classifyResponse exampleRequest 200 mismatchBody =
      Classification.requestIdMismatch "a83f397c-8ef4-4801-a9b7-6e7915504420"
    ∧ (∀ cfg, (mkWebhookResponseEvent cfg (.success 200 mismatchBody)
        (classifyResponse exampleRequest 200 mismatchBody)).mismatchedRequestId =
        some "a83f397c-8ef4-4801-a9b7-6e7915504420")
    ∧ acceptQuote exampleRequest (classifyResponse exampleRequest 200 mismatchBody) = none :=
  request_id_mismatch_spec exampleRequest 200 mismatchBody
    { exampleParsed with requestId := "a83f397c-8ef4-4801-a9b7-6e7915504420" }
    (by decide) rfl (by decide)



/-- C8: a response is classified NON_QUOTE exactly when it has a non-2xx
status, or is a schema-valid requestId-matching body whose relevant amount
is zero (ExactInput: amountOut = 0; ExactOutput: amountIn = 0); NON_QUOTE
contributes no quote. -/
theorem non_quote_iff (req : QuoteRequest) (status : Nat) (b : RfqResponseBody) :
    (classifyResponse req status b = .nonQuote ↔
      is2xx status = false
      ∨ (∃ p, parseRfqResponse b = Except.ok p ∧ p.requestId = req.requestId
          ∧ quoteIsZero req p = true))
    ∧ (∀ p, quoteIsZero req p = true ↔
        (req.tradeType = .EXACT_INPUT ∧ p.amountOut = 0)
        ∨ (req.tradeType = .EXACT_OUTPUT ∧ p.amountIn = 0))
    ∧ acceptQuote req Classification.nonQuote = none := by
  refine ⟨?_, ?_, rfl⟩
  · cases his : is2xx status with
    | false => simp [classifyResponse, his]
    | true =>
      cases hok : parseRfqResponse b with
      | error vs => simp [classifyResponse, his, hok]
      | ok p =>
        by_cases hr : p.requestId = req.requestId
        · cases hz : quoteIsZero req p <;>
            simp [classifyResponse, his, hok, hr, hz, bne_iff_ne]
        · simp [classifyResponse, his, hok, hr, bne_iff_ne]
  · intro p
    cases ht : req.tradeType <;> simp [quoteIsZero, ht]



theorem mem_dispatchedCalls (q : WebhookQuoter) (req : QuoteRequest) (call : DispatchedCall)
    (h : call ∈ q.dispatchedCalls req) :
    ∃ cfg ∈ q.getEligibleEndpoints req, call.url = cfg.endpoint := by
  simp only [WebhookQuoter.dispatchedCalls, List.mem_flatten, List.mem_map] at h
  obtain ⟨calls, ⟨cfg, hcfg, hcalls⟩, hcall⟩ := h
  refine ⟨cfg, hcfg, ?_⟩
  subst hcalls
  simp only [List.mem_cons, List.mem_singleton] at hcall
  rcases hcall with h | h | h
  · subst h; rfl
  · subst h; rfl
  · exact absurd h (List.not_mem_nil call)

/-- C9: an endpoint is compliance-excluded iff the request has a swapper
and some rule lists both the endpoint and that swapper; a swapper-less
request is never excluded; an excluded endpoint is not eligible, and every
analytics event and dispatched call arises from an eligible endpoint, so
the drop is silent (no call, no event). -/
theorem compliance_exclusion_spec (cc : List FillerComplianceConfiguration)
    (cfg : WebhookConfiguration) (req : QuoteRequest) :
    (complianceExcluded cc cfg req = true ↔
      ∃ s, req.swapper = some s ∧ ∃ r ∈ cc, cfg.endpoint ∈ r.endpoints ∧ s ∈ r.addresses)
    ∧ (req.swapper = none → complianceExcluded cc cfg req = false)
    ∧ (∀ q : WebhookQuoter, q.complianceConfigs = cc →
        complianceExcluded cc cfg req = true → cfg ∉ q.getEligibleEndpoints req)
    ∧ (∀ (q : WebhookQuoter) (net : WebhookNetwork) (ev : AnalyticsEvent),
        ev ∈ (q.quote req net).events →
        ∃ c ∈ q.getEligibleEndpoints req, ev.endpoint = c.endpoint)
    ∧ (∀ (q : WebhookQuoter) (call : DispatchedCall), call ∈ q.dispatchedCalls req →
        ∃ c ∈ q.getEligibleEndpoints req, call.url = c.endpoint) := by
  refine ⟨?_, ?_, ?_, ?_, ?_⟩
  · cases hsw : req.swapper with
    | none => simp [complianceExcluded, hsw]
    | some s => simp [complianceExcluded, hsw, List.any_eq_true]
  · intro hsw
    simp [complianceExcluded, hsw]
  · intro q hq hex hmem
    subst hq
    simp only [WebhookQuoter.getEligibleEndpoints, List.mem_filter, hex, Bool.not_true,
      Bool.and_false] at hmem
    exact absurd hmem.2 (by simp)
  · intro q net ev hev
    obtain ⟨c, hc, he, _⟩ := mem_quote_events q req net ev hev
    exact ⟨c, hc, he⟩
  · intro q call hcall
    exact mem_dispatchedCalls q req call hcall

/-- The compliance rule of the WebhookQuoter test. -/
def exampleComplianceRule : FillerComplianceConfiguration :=
  { endpoints := ["https://uniswap.org", "google.com"]
    addresses := ["0x0000000000000000000000000000000000000000"] }

/-- The uniswap endpoint configuration of the WebhookQuoter test. -/
def uniswapConfig : WebhookConfiguration :=
  { name := "uniswap", endpoint := "https://uniswap.org", headers := [], hash := "0xuni" }

/-- The example quoter with the compliance rule in force. -/
def exampleComplianceQuoter : WebhookQuoter :=
  { exampleQuoter with complianceConfigs := [exampleComplianceRule] }

/-- Witness for C9, mirroring the compliance test: with the rule in force,
the uniswap endpoint is not eligible for the swapper request. -/
theorem compliance_exclusion_spec_witness :
    uniswapConfig ∉ exampleComplianceQuoter.getEligibleEndpoints exampleRequest :=
  (compliance_exclusion_spec [exampleComplianceRule] uniswapConfig exampleRequest).2.2.1
    exampleComplianceQuoter rfl (by decide)

/-- C10: for every eligible endpoint two POSTs are dispatched — the clean
payload and the opposing payload (tokenIn/tokenOut swapped), each with the
endpoint headers and the fixed 500 ms timeout — regardless of whether the
request carries a swapper. -/
theorem dual_dispatch (q : WebhookQuoter) (req : QuoteRequest) (cfg : WebhookConfiguration)
    (h : cfg ∈ q.getEligibleEndpoints req) :
    cleanCall req cfg ∈ q.dispatchedCalls req
    ∧ opposingCall req cfg ∈ q.dispatchedCalls req
    ∧ (cleanCall req cfg).body = req.toCleanJSON
    ∧ (opposingCall req cfg).body = req.toOpposingCleanJSON
    ∧ req.toOpposingCleanJSON =
        { req.toCleanJSON with tokenIn := req.tokenOut, tokenOut := req.tokenIn }
    ∧ (cleanCall req cfg).headers = cfg.headers
    ∧ (opposingCall req cfg).headers = cfg.headers
    ∧ (cleanCall req cfg).timeoutMs = 500
    ∧ (opposingCall req cfg).timeoutMs = 500 := by
  refine ⟨?_, ?_, rfl, rfl, rfl, rfl, rfl, rfl, rfl⟩ <;>
  · simp only [WebhookQuoter.dispatchedCalls, List.mem_flatten, List.mem_map]
    exact ⟨_, ⟨cfg, h, rfl⟩, by simp⟩

/-- Witness for C10: the request of the test fixtures carries a swapper,
and both directional calls to the uniswap endpoint are dispatched. -/
theorem dual_dispatch_witness :
    cleanCall exampleRequest uniswapConfig ∈ exampleQuoter.dispatchedCalls exampleRequest
    ∧ opposingCall exampleRequest uniswapConfig ∈ exampleQuoter.dispatchedCalls exampleRequest
    ∧ exampleRequest.swapper = some "0x0000000000000000000000000000000000000000" := by
  have h := dual_dispatch exampleQuoter exampleRequest uniswapConfig (by decide)
  exact ⟨h.1, h.2.1, rfl⟩


end V3Uniswap
